import Mathlib

/-
  Verification of the sea-streamer file backend (sea-streamer-file) and the
  anchor/sequence logic shared with the stdio and kafka backends.

  Shallow embedding conventions:
  - Rust u64 values are Nat; where the source relies on wrapping u64
    arithmetic we reduce modulo U64 = 2^64 explicitly.
  - Bytes (the payload container) is a List Nat of byte values; per the
    documented container interface, `pop n` splits off the first n bytes.
  - Channels are modelled by the list of items obtainable by successive
    receives, plus a disconnection flag where it matters.
  - StreamKey is a String (key validation is irrelevant to the claims).
-/

/-- Modelled from the spec: format.rs is not under src/. Header error
taxonomy: BadMagic, UnsupportedVersion, ChecksumMismatch, Truncated.
Only cloneability matters here, so the variants carry no payloads. -/
inductive HeaderErrKind
  | badMagic
  | unsupportedVersion
  | checksumMismatch
  | truncated
deriving DecidableEq

/-- Modelled from the spec: format.rs is not under src/. Format error
taxonomy: Truncated, ChecksumMismatch, InvalidStreamKey, InvalidUtf8,
OversizeRecord. -/
inductive FormatErrKind
  | truncated
  | checksumMismatch
  | invalidStreamKey
  | invalidUtf8
  | oversizeRecord
deriving DecidableEq

/-- FileErr from sea-streamer-file/src/error.rs. The std Utf8Error payload is
modelled as a Nat (its valid_up_to index); the std io::Error payload as a Nat
(its error kind); flume::RecvError is the unit-like Disconnected. -/
inductive FileErr
  | utf8Error (e : Nat)
  | ioError (e : Nat)
  | duplicateIoError
  | watchError (msg : String)
  | headerErr (e : HeaderErrKind)
  | formatErr (e : FormatErrKind)
  | fileRemoved
  | fileLimitExceeded
  | taskDead (who : String)
  | notEnoughBytes
  | recvError
  | producerEnded
deriving DecidableEq

/-- FileErr::take from error.rs: build a replacement value arm by arm
(IoError is not cloneable, so its replacement is DuplicateIoError; every
other arm clones itself), then mem::swap leaves the replacement in place and
returns the original. Result is (returned value, value left in place).
The producerEnded arm is forced: producer/mod.rs constructs
FileErr::ProducerEnded and the spec's error taxonomy lists it, although
the enum in error.rs as shown omits it; a payload-free variant can only
clone itself. -/
def FileErr.take (e : FileErr) : FileErr × FileErr :=
  let copy : FileErr :=
    match e with
    | .utf8Error a => .utf8Error a
    | .ioError _ => .duplicateIoError
    | .duplicateIoError => .duplicateIoError
    | .watchError a => .watchError a
    | .headerErr a => .headerErr a
    | .formatErr a => .formatErr a
    | .fileRemoved => .fileRemoved
    | .fileLimitExceeded => .fileLimitExceeded
    | .taskDead a => .taskDead a
    | .notEnoughBytes => .notEnoughBytes
    | .recvError => .recvError
    | .producerEnded => .producerEnded
  (e, copy)

/-- Whether a FileErr is the IoError variant (carrying a live io::Error). -/
def FileErr.isIoVariant : FileErr → Bool
  | .ioError _ => true
  | _ => false

/-- sea_streamer_types::StreamErr, restricted to the variants the embedded
code constructs, parameterised by the backend error type. -/
inductive StreamErr (E : Type)
  | backend (e : E)
  | alreadyAnchored
  | notAnchored
deriving DecidableEq

/-- Outcome of one Request::Bytes arm of the FileSink writer loop
(sink.rs): the bytes appended to the file, the remaining quota, and the
terminal FileErr sent on the update channel if the task exits. -/
structure BytesStep where
  written : List Nat
  quota : Nat
  terminal : Option FileErr
deriving DecidableEq

/-- The Request::Bytes arm of the FileSink writer loop (sink.rs lines
47-66). `quota0` is the remaining quota, `bytes0` the request payload,
`writeErr` the result of file.write_all (none = success). Mirrors the
source: if quota < len, the bytes are truncated to the first quota bytes
via Bytes::pop and len becomes quota; a write error is terminal; otherwise
quota -= len, and if the quota is now zero the task sends
FileLimitExceeded and exits; else the loop continues (terminal = none).
Note quota -= len never underflows here: after the truncation step
len ≤ quota always holds, so plain Nat subtraction is exact u64. -/
def handleBytes (quota0 : Nat) (bytes0 : List Nat) (writeErr : Option FileErr) :
    BytesStep :=
  let len0 := bytes0.length
  let bytes := if quota0 < len0 then bytes0.take quota0 else bytes0
  let len := if quota0 < len0 then quota0 else len0
  match writeErr with
  | some e => { written := bytes, quota := quota0, terminal := some e }
  | none =>
    let quota := quota0 - len
    if quota = 0 then
      { written := bytes, quota := quota, terminal := some FileErr.fileLimitExceeded }
    else
      { written := bytes, quota := quota, terminal := none }

/-- Watcher events (watcher.rs FileEvent, as consumed by sink.rs). -/
inductive FileEvent
  | modify
  | remove
  | rewatch
  | error (msg : String)
deriving DecidableEq

/-- Outcome of the post-operation watcher drain loop in the FileSink task
(sink.rs lines 89-111): continue the outer loop, exit after sending a
terminal FileErr on the update channel, or exit without sending anything. -/
inductive DrainOutcome
  | continueLoop
  | exitWith (e : FileErr)
  | exitSilent
deriving DecidableEq

/-- The watcher event drain loop of the FileSink task (sink.rs lines
89-111), on the list of events queued in the (still connected) event
channel. Mirrors the source: Modify is skipped and the drain continues;
Remove drops the request receiver and sends FileErr::FileRemoved, exiting
the task; Error(e) likewise with FileErr::WatchError(e); Rewatch logs a
warning and breaks the outer loop without sending anything; an empty
channel (TryRecvError::Empty) continues the outer loop. -/
def drainEvents : List FileEvent → DrainOutcome
  | [] => DrainOutcome.continueLoop
  | FileEvent.modify :: rest => drainEvents rest
  | FileEvent.remove :: _ => DrainOutcome.exitWith FileErr.fileRemoved
  | FileEvent.error e :: _ => DrainOutcome.exitWith (FileErr.watchError e)
  | FileEvent.rewatch :: _ => DrainOutcome.exitSilent

/-- Updates on the FileSink update channel (sink.rs). -/
inductive Update
  | fileErr (e : FileErr)
  | receipt (marker : Nat)
deriving DecidableEq

/-- Result of FileSink::return_err (sink.rs lines 129-144): either the
stored FileErr is returned, or try_recv on the update channel yields an
Err (Empty or Disconnected) and return_err panics. -/
inductive ReturnErrOutcome
  | returns (e : FileErr)
  | panics
deriving DecidableEq

/-- The try_recv loop inside return_err, over the list of updates still
obtainable from the update channel (for the rendezvous channel this is
what a blocked sender is offering). Receipts are discarded; the first
FileErr is returned together with the remaining updates; if the updates
run out, try_recv returns an Err and the loop panics. -/
def returnErrLoop : List Update → ReturnErrOutcome × List Update
  | [] => (ReturnErrOutcome.panics, [])
  | Update.fileErr e :: rest => (ReturnErrOutcome.returns e, rest)
  | Update.receipt _ :: rest => returnErrLoop rest

/-- Caller-side state of a FileSink (sink.rs): whether the watcher is still
held, whether the task still holds the request receiver (so that enqueues
succeed), and the updates obtainable from the update channel. After a
terminal error the task has dropped the receiver and offers exactly one
FileErr (possibly after receipts) before disconnecting. -/
structure SinkState where
  watcher : Bool
  taskAlive : Bool
  update : List Update
deriving DecidableEq

/-- FileSink::return_err: take (drop) the watcher, then loop try_recv on
the update channel for the stored FileErr, panicking if there is none. -/
def sinkReturnErr (s : SinkState) : ReturnErrOutcome × SinkState :=
  let r := returnErrLoop s.update
  (r.1, { s with watcher := false, update := r.2 })

/-- Observable outcome of a FileSink operation at the caller. -/
inductive WriteOutcome
  | accepted
  | failed (e : FileErr)
  | panics
deriving DecidableEq

/-- ByteSink::write for FileSink (sink.rs lines 177-186): enqueue the bytes
on the request channel; if the task is gone the send fails and the result
comes from return_err. The bytes argument is irrelevant to the outcome. -/
def sinkWrite (s : SinkState) (_bytes : List Nat) : WriteOutcome × SinkState :=
  if s.taskAlive then (WriteOutcome.accepted, s)
  else
    match sinkReturnErr s with
    | (ReturnErrOutcome.returns e, s2) => (WriteOutcome.failed e, s2)
    | (ReturnErrOutcome.panics, s2) => (WriteOutcome.panics, s2)

/-- 2^64, the modulus of Rust u64 arithmetic. -/
def U64 : Nat := 18446744073709551616

/-- Wrapping u64 subtraction (release-build semantics of an unchecked
`a - b` on u64), for a, b < U64. -/
def u64Sub (a b : Nat) : Nat := (a + U64 - b % U64) % U64

/-- The initial available quota computed by FileSink::new (sink.rs line 42):
the unchecked u64 subtraction `quota -= file.size()`. In release builds
this wraps modulo 2^64 (in debug builds the same expression panics on
overflow; the arithmetic fact proved below is about the wrapped value).
FileSink::new performs no check and returns Ok with this quota whenever
the watcher is created successfully. -/
def fileSinkInitQuota (quota size : Nat) : Nat := u64Sub quota size

/-- SendRequest from sea-streamer-file/src/producer/mod.rs: the payload of
a Request::Send, carrying the stream key, shard id, a timestamp, and the
bytes. Timestamps are abstract clock readings modelled as Nat. -/
structure SendRequest where
  stream_key : String
  shard_id : Nat
  timestamp : Nat
  bytes : List Nat
deriving DecidableEq

/-- The SendRequest constructed by FileProducer::send_to (producer/mod.rs
lines 78-104): shard_id is ShardId::new(0), timestamp is the value of
Timestamp::now_utc() at the moment of the send_to call (`now`), bytes is
the caller's buffer. -/
def mkSendRequest (now : Nat) (stream_key : String) (buffer : List Nat) :
    SendRequest :=
  { stream_key := stream_key
    shard_id := 0
    timestamp := now
    bytes := buffer }

/-- Requests routed through the dispatcher channel (producer/mod.rs). -/
inductive Request
  | send (r : SendRequest)
  | flushReq
  | endReq
  | dropReq
deriving DecidableEq

/-- FileProducer::send_to (producer/mod.rs lines 78-104): if the dispatcher
sender is closed (writer task gone) the enqueue fails and the call returns
Err(StreamErr::Backend(FileErr::ProducerEnded)); otherwise the SendRequest
built by mkSendRequest is enqueued and the call returns the send future
(modelled by the enqueued request). -/
def fileProducerSendTo (closed : Bool) (now : Nat) (stream_key : String)
    (buffer : List Nat) : Except (StreamErr FileErr) SendRequest :=
  if closed then Except.error (StreamErr.backend FileErr.producerEnded)
  else Except.ok (mkSendRequest now stream_key buffer)

/-- FileProducer::flush (producer/mod.rs lines 127-146): if the dispatcher
sender is closed, fail with ProducerEnded; otherwise await the reply
channel: Ok(Ok(())) succeeds, Ok(Err(e)) is Backend(e), a dropped reply
channel (none) is again ProducerEnded. -/
def fileProducerFlush (closed : Bool) (reply : Option (Except FileErr Unit)) :
    Except (StreamErr FileErr) Unit :=
  if closed then Except.error (StreamErr.backend FileErr.producerEnded)
  else
    match reply with
    | some (Except.ok ()) => Except.ok ()
    | some (Except.error e) => Except.error (StreamErr.backend e)
    | none => Except.error (StreamErr.backend FileErr.producerEnded)

/-- FileProducer::end (producer/mod.rs lines 106-125): same shape as flush
but sending Request::End. -/
def fileProducerEnd (closed : Bool) (reply : Option (Except FileErr Unit)) :
    Except (StreamErr FileErr) Unit :=
  if closed then Except.error (StreamErr.backend FileErr.producerEnded)
  else
    match reply with
    | some (Except.ok ()) => Except.ok ()
    | some (Except.error e) => Except.error (StreamErr.backend e)
    | none => Except.error (StreamErr.backend FileErr.producerEnded)

/-- Drop for FileProducer (producer/mod.rs lines 166-175): send a
Request::Drop and discard the result with .ok(). The drop itself always
completes; the value is the request actually delivered to the channel
(none when the channel is closed and the send failed). -/
def fileProducerDropDelivered (closed : Bool) : Option Request :=
  if closed then none else some Request.dropReq

/-- FileProducer::anchor (producer/mod.rs lines 148-155): set the stream
key if none is set, else AlreadyAnchored; returns (result, new state). -/
def fileProducerAnchor (stream : Option String) (key : String) :
    Except (StreamErr FileErr) Unit × Option String :=
  match stream with
  | none => (Except.ok (), some key)
  | some s => (Except.error StreamErr.alreadyAnchored, some s)

/-- FileProducer::anchored (producer/mod.rs lines 157-163). -/
def fileProducerAnchored (stream : Option String) :
    Except (StreamErr FileErr) String :=
  match stream with
  | some s => Except.ok s
  | none => Except.error StreamErr.notAnchored

/-- MessageHeader (sea_streamer_types): (stream key, shard id, sequence
number, timestamp), assigned by the writer. -/
structure MessageHeader where
  stream_key : String
  shard_id : Nat
  sequence : Nat
  timestamp : Nat
deriving DecidableEq

/-- Modelled from the spec: the per-file writer task lives in
producer/backend.rs, which is not under src/. Per the spec's writer-task
contract, on a Send request the task assigns the SequenceNo by
post-incrementing the in-memory counter for the (stream key, shard id)
pair and sets Timestamp = now, `now` being the writer-task clock reading
when the request is dequeued; the timestamp field carried inside the
SendRequest is not consulted. Returns the assigned MessageHeader and the
updated counters. -/
def writerAssign (counters : String × Nat → Nat) (now : Nat)
    (req : SendRequest) : MessageHeader × (String × Nat → Nat) :=
  let seq := counters (req.stream_key, req.shard_id)
  ({ stream_key := req.stream_key
     shard_id := req.shard_id
     sequence := seq
     timestamp := now },
   fun p => if p = (req.stream_key, req.shard_id) then seq + 1 else counters p)

/-- Producers from sea-streamer-stdio/src/producer.rs: the process-wide
sequences map StreamKey -> SequenceNo, modelled as a lookup function
(none = key absent from the HashMap). -/
def Producers := String → Option Nat

/-- Producers::append (stdio producer.rs lines 115-127): if the key is
present with value v, return v and store v + 1; if absent, insert 1 and
return 0. Returns (current sequence number, updated map). -/
def Producers.append (m : Producers) (stream : String) : Nat × Producers :=
  match m stream with
  | some v => (v, fun k => if k = stream then some (v + 1) else m k)
  | none => (0, fun k => if k = stream then some 1 else m k)

/-- n successive Producers.append calls for the same key, discarding the
returned sequence numbers; used to state what the (n+1)-th call returns. -/
def Producers.appendCalls (m : Producers) (stream : String) : Nat → Producers
  | 0 => m
  | n + 1 => (Producers.append (Producers.appendCalls m stream n) stream).2

/-- StdioErr (sea-streamer-stdio), restricted to what producer.rs
constructs. -/
inductive StdioErr
  | recvError
  | disconnected
deriving DecidableEq

/-- StdioProducer::anchor (stdio producer.rs lines 186-193). -/
def stdioProducerAnchor (stream : Option String) (key : String) :
    Except (StreamErr StdioErr) Unit × Option String :=
  match stream with
  | none => (Except.ok (), some key)
  | some s => (Except.error StreamErr.alreadyAnchored, some s)

/-- StdioProducer::anchored (stdio producer.rs lines 195-201). -/
def stdioProducerAnchored (stream : Option String) :
    Except (StreamErr StdioErr) String :=
  match stream with
  | some s => Except.ok s
  | none => Except.error StreamErr.notAnchored

/-- KafkaErr (rdkafka's error, external), restricted to what the embedded
code needs as a type parameter. -/
inductive KafkaErr
  | canceled
deriving DecidableEq

/-- KafkaProducer::anchor (kafka producer.rs lines 93-100). -/
def kafkaProducerAnchor (stream : Option String) (key : String) :
    Except (StreamErr KafkaErr) Unit × Option String :=
  match stream with
  | none => (Except.ok (), some key)
  | some s => (Except.error StreamErr.alreadyAnchored, some s)

/-- KafkaProducer::anchored (kafka producer.rs lines 102-108). -/
def kafkaProducerAnchored (stream : Option String) :
    Except (StreamErr KafkaErr) String :=
  match stream with
  | some s => Except.ok s
  | none => Except.error StreamErr.notAnchored

/-- Helper: the return_err try_recv loop skips any receipts queued before
the stored FileErr and returns that error with the remainder of the queue. -/
theorem returnErrLoop_receipts (rs : List Nat) (e : FileErr) (tail : List Update) :
    returnErrLoop (rs.map Update.receipt ++ Update.fileErr e :: tail)
      = (ReturnErrOutcome.returns e, tail) := by
  induction rs with
  | nil => rfl
  | cons r rs ih => simpa [returnErrLoop] using ih

/-- Helper: starting from a map where the key is absent, after n append
calls the stored counter for that key is n (absent when n = 0). -/
theorem appendCalls_lookup (m : Producers) (k : String) (h : m k = none) :
    ∀ n, Producers.appendCalls m k n k = if n = 0 then none else some n := by
  intro n
  induction n with
  | zero => simpa [Producers.appendCalls] using h
  | succ n ih =>
    by_cases hn : n = 0
    · subst hn
      simp [Producers.appendCalls, Producers.append, h]
    · simp only [Producers.appendCalls, Producers.append, ih, if_neg hn]
      simp

/-- Claim C1 (amended): in the FileSink writer loop, for a Bytes request of
length L with a successful append: if the remaining quota is less than L,
the bytes are truncated to quota bytes via pop, appended, and
FileLimitExceeded is sent as a terminal error; otherwise all L bytes are
appended and the quota is decremented by L, but the loop continues without
a terminal error only when the resulting quota is positive — when the
quota equals L exactly, the decremented quota reaches zero and the task
sends FileLimitExceeded and exits even though no byte was truncated. -/
theorem C1_bytes_arm (q : Nat) (bs : List Nat) :
    (q < bs.length → handleBytes q bs none =
      { written := bs.take q, quota := 0,
        terminal := some FileErr.fileLimitExceeded }) ∧
    (bs.length ≤ q → handleBytes q bs none =
      { written := bs, quota := q - bs.length,
        terminal := if q = bs.length then some FileErr.fileLimitExceeded
          else none }) := by
  constructor
  · intro h
    simp [handleBytes, h, Nat.sub_self]
  · intro h
    have hn : ¬ q < bs.length := Nat.not_lt.mpr h
    by_cases hq : q = bs.length
    · simp [handleBytes, hn, hq, Nat.sub_self]
    · have hz : q - bs.length ≠ 0 := by omega
      simp [handleBytes, hn, hq, hz]

/-- Claim C1 counterexample: with remaining quota 3 and a 3-byte request,
the quota is not less than L, all three bytes are appended without
truncation, yet the task sends FileLimitExceeded as a terminal error
instead of continuing to the next request. -/
theorem C1_counterexample :
    ¬ (3 : Nat) < ([9, 9, 9] : List Nat).length ∧
    (handleBytes 3 [9, 9, 9] none).written = [9, 9, 9] ∧
    (handleBytes 3 [9, 9, 9] none).terminal = some FileErr.fileLimitExceeded ∧
    ¬ (handleBytes 3 [9, 9, 9] none).terminal = none := by
  exact ⟨by decide, by decide, by decide, by decide⟩

/-- Claim C1 witness: concrete evaluations of both branches of the amended
theorem, at quota 2 with 3 bytes (truncation) and quota 5 with 1 byte
(plain append that continues the loop). -/
theorem C1_witness :
    ((2 : Nat) < ([9, 9, 9] : List Nat).length ∧
      handleBytes 2 [9, 9, 9] none =
        { written := [9, 9], quota := 0,
          terminal := some FileErr.fileLimitExceeded }) ∧
    (([9] : List Nat).length ≤ 5 ∧
      handleBytes 5 [9] none =
        { written := [9], quota := 4, terminal := none }) :=
  ⟨⟨by decide, by simpa using (C1_bytes_arm 2 [9, 9, 9]).1 (by decide)⟩,
   ⟨by decide, by simpa using (C1_bytes_arm 5 [9]).2 (by decide)⟩⟩

/-- Claim C2: the writer task (modelled from the spec, producer/backend.rs
not being under src/) assigns the record timestamp at the moment the
request is dequeued into the writer task: the assigned MessageHeader
timestamp equals the writer-task clock reading, and the header is
independent of the clock reading taken by FileProducer::send_to at the
producer call (which is carried, unused, inside the SendRequest). -/
theorem C2_timestamp_at_writer (counters : String × Nat → Nat)
    (callNow1 callNow2 dequeueNow : Nat) (k : String) (b : List Nat) :
    (writerAssign counters dequeueNow (mkSendRequest callNow1 k b)).1.timestamp
      = dequeueNow ∧
    (writerAssign counters dequeueNow (mkSendRequest callNow1 k b)).1
      = (writerAssign counters dequeueNow (mkSendRequest callNow2 k b)).1 :=
  ⟨rfl, rfl⟩

/-- Claim C3: behaviour of the post-operation watcher drain loop. An empty
channel continues the outer loop; Modify is skipped and the drain
continues; Remove is terminal with FileErr::FileRemoved sent on the update
channel; Error(msg) is terminal with FileErr::WatchError(msg); but Rewatch
makes the task exit silently, without sending any FileErr — diverging from
the claim, which says an error is sent for Rewatch as well. -/
theorem C3_drain_loop :
    drainEvents [] = DrainOutcome.continueLoop ∧
    (∀ rest, drainEvents (FileEvent.modify :: rest) = drainEvents rest) ∧
    (∀ rest, drainEvents (FileEvent.remove :: rest)
      = DrainOutcome.exitWith FileErr.fileRemoved) ∧
    (∀ rest msg, drainEvents (FileEvent.error msg :: rest)
      = DrainOutcome.exitWith (FileErr.watchError msg)) ∧
    (∀ rest, drainEvents (FileEvent.rewatch :: rest) = DrainOutcome.exitSilent) :=
  ⟨rfl, fun _ => rfl, fun _ => rfl, fun _ _ => rfl, fun _ => rfl⟩

/-- Claim C4 counterexample: with the task exited offering its single
stored FileRemoved error, a first failed write returns the error, but a
second failed write finds the update channel exhausted and return_err
panics — refuting "always finds a stored FileErr to return, on every such
call and without panicking". -/
theorem C4_counterexample :
    (sinkWrite { watcher := true, taskAlive := false,
                 update := [Update.fileErr FileErr.fileRemoved] } []).1
      = WriteOutcome.failed FileErr.fileRemoved ∧
    (sinkWrite ((sinkWrite { watcher := true, taskAlive := false,
                             update := [Update.fileErr FileErr.fileRemoved] }
        []).2) []).1
      = WriteOutcome.panics := by
  exact ⟨by decide, by decide⟩

/-- Claim C4 (amended): when enqueueing fails because the task has exited
after sending its single terminal FileErr (possibly preceded by receipt
updates), the first such operation invokes return_err, which drops the
watcher, skips the receipts and returns the stored error, leaving the
update queue empty; any further operation that again fails to enqueue
panics in return_err instead of returning an error. -/
theorem C4_error_latch (e : FileErr) (rs : List Nat) (w : Bool) (b : List Nat) :
    sinkWrite { watcher := w, taskAlive := false,
                update := rs.map Update.receipt ++ [Update.fileErr e] } b
      = (WriteOutcome.failed e,
         { watcher := false, taskAlive := false, update := [] }) ∧
    (sinkWrite { watcher := false, taskAlive := false,
                 update := ([] : List Update) } b).1
      = WriteOutcome.panics := by
  constructor
  · have h := returnErrLoop_receipts rs e []
    simp [sinkWrite, sinkReturnErr, h]
  · rfl

/-- Claim C5: when the dispatcher sender channel is closed (writer task
gone), send_to, flush and end each fail with
StreamErr::Backend(FileErr::ProducerEnded); Drop sends a best-effort Drop
request that is delivered exactly when the channel is open, and completes
either way. -/
theorem C5_producer_ended (now : Nat) (k : String) (b : List Nat)
    (reply : Option (Except FileErr Unit)) :
    fileProducerSendTo true now k b
      = Except.error (StreamErr.backend FileErr.producerEnded) ∧
    fileProducerFlush true reply
      = Except.error (StreamErr.backend FileErr.producerEnded) ∧
    fileProducerEnd true reply
      = Except.error (StreamErr.backend FileErr.producerEnded) ∧
    fileProducerDropDelivered true = none ∧
    fileProducerDropDelivered false = some Request.dropReq :=
  ⟨rfl, rfl, rfl, rfl, rfl⟩

/-- Claim C6: starting from a sequences map in which the stream key is
absent, the (n+1)-th call of Producers::append for that key returns n —
so the first call returns 0 and each successive call returns exactly one
more than the previous one, with no gaps — and n calls for that key leave
the entry of any other key unchanged. -/
theorem C6_append_sequence (m : Producers) (k k2 : String) (n : Nat)
    (h : m k = none) (hk : k2 ≠ k) :
    (Producers.append (Producers.appendCalls m k n) k).1 = n ∧
    Producers.appendCalls m k n k2 = m k2 := by
  constructor
  · have hl := appendCalls_lookup m k h n
    by_cases hn : n = 0
    · subst hn
      simp only [if_pos rfl] at hl
      simp [Producers.append, hl]
    · simp only [if_neg hn] at hl
      simp [Producers.append, hl]
  · induction n with
    | zero => rfl
    | succ n ih =>
      show (Producers.append (Producers.appendCalls m k n) k).2 k2 = m k2
      cases hL : Producers.appendCalls m k n k with
      | none => simp [Producers.append, hL, hk, ih]
      | some v => simp [Producers.append, hL, hk, ih]

/-- Claim C6 witness: from the empty map, two appends of key "a" leave the
third returning sequence 2, and key "b" is untouched. -/
theorem C6_witness :
    ((fun _ => none : Producers) "a" = none) ∧ ("b" ≠ "a") ∧
    ((Producers.append (Producers.appendCalls (fun _ => none) "a" 2) "a").1 = 2 ∧
      Producers.appendCalls (fun _ => none) "a" 2 "b"
        = (fun _ => none : Producers) "b") :=
  ⟨rfl, by decide, C6_append_sequence (fun _ => none) "a" "b" 2 rfl (by decide)⟩

/-- Claim C7: FileErr::take returns a value equal to the original, leaves
DuplicateIoError in place exactly when the original was an IoError (an
equal copy is left for every other variant, DuplicateIoError included),
and the value left behind is never an IoError — so the underlying
IoError is observable at most once while some error kind always remains. -/
theorem C7_take_once (e : FileErr) :
    (FileErr.take e).1 = e ∧
    (FileErr.take e).2
      = (if e.isIoVariant then FileErr.duplicateIoError else e) ∧
    (FileErr.take e).2.isIoVariant = false := by
  cases e <;> simp [FileErr.take, FileErr.isIoVariant]

/-- Claim C8: for the file, stdio and kafka producers alike, anchor on an
unanchored producer succeeds and records the key; anchor on an anchored
producer fails with AlreadyAnchored and leaves the key unchanged;
anchored returns the key when one exists and fails with NotAnchored
otherwise. -/
theorem C8_anchor_all_backends (k j : String) :
    fileProducerAnchor none k = (Except.ok (), some k) ∧
    fileProducerAnchor (some j) k
      = (Except.error StreamErr.alreadyAnchored, some j) ∧
    fileProducerAnchored (some j) = Except.ok j ∧
    fileProducerAnchored none = Except.error StreamErr.notAnchored ∧
    stdioProducerAnchor none k = (Except.ok (), some k) ∧
    stdioProducerAnchor (some j) k
      = (Except.error StreamErr.alreadyAnchored, some j) ∧
    stdioProducerAnchored (some j) = Except.ok j ∧
    stdioProducerAnchored none = Except.error StreamErr.notAnchored ∧
    kafkaProducerAnchor none k = (Except.ok (), some k) ∧
    kafkaProducerAnchor (some j) k
      = (Except.error StreamErr.alreadyAnchored, some j) ∧
    kafkaProducerAnchored (some j) = Except.ok j ∧
    kafkaProducerAnchored none = Except.error StreamErr.notAnchored :=
  ⟨rfl, rfl, rfl, rfl, rfl, rfl, rfl, rfl, rfl, rfl, rfl, rfl⟩

/-- Claim C9: FileSink::new computes the initial available quota by the
unchecked u64 subtraction quota - file.size(); whenever the file is
already larger than the quota this underflows, and the release-build
wrapped value is 2^64 - (size - quota), which strictly exceeds the
configured quota — FileSink::new performs no check and returns no error
for this case. -/
theorem C9_quota_underflow (quota size : Nat) (hs : size < U64)
    (hq : quota < size) :
    fileSinkInitQuota quota size = U64 - (size - quota) ∧
    quota < fileSinkInitQuota quota size := by
  have hU : U64 = 18446744073709551616 := rfl
  have hmod : size % U64 = size := Nat.mod_eq_of_lt hs
  unfold fileSinkInitQuota u64Sub
  rw [hmod]
  have hlt : quota + U64 - size < U64 := by omega
  rw [Nat.mod_eq_of_lt hlt]
  omega

/-- Claim C9 witness: a file of size 10 against quota 5 wraps the initial
available quota to 2^64 - 5, far above the configured quota. -/
theorem C9_witness :
    (10 : Nat) < U64 ∧ (5 : Nat) < 10 ∧
    (fileSinkInitQuota 5 10 = U64 - (10 - 5) ∧
      (5 : Nat) < fileSinkInitQuota 5 10) :=
  ⟨by decide, by decide, C9_quota_underflow 5 10 (by decide) (by decide)⟩

/-- Claim C10: the SendRequest enqueued by FileProducer::send_to is exactly
mkSendRequest, whose shard id is ShardId::new(0): every record produced
through the public FileProducer interface is assigned shard 0. -/
theorem C10_shard_zero (now : Nat) (k : String) (b : List Nat) :
    fileProducerSendTo false now k b = Except.ok (mkSendRequest now k b) ∧
    (mkSendRequest now k b).shard_id = 0 :=
  ⟨rfl, rfl⟩
